import Mathlib

/-! Verification of `Music/Downloader.py` (the Spotify-only downloader).

Shallow embedding of the `Downloader` class of `src/Music/Downloader.py`.
Python dicts that can be absent/`None` are modelled as `Option`; `{}` results
(the "no result" info dict) are modelled as `none`; exceptions raised by the
Spotify client are modelled with `Except String`.
-/

namespace Downloader

/-- The song-info dict built by the downloader
(`url`, `title`, `webpage_url`, `uploader`, `thumbnail`, `duration`). -/
structure SongInfo where
  url : String
  title : Option String
  webpage_url : Option String
  uploader : Option String
  thumbnail : Option String
  duration : Nat
deriving DecidableEq, Repr

/-- An artist object: `a.get("name")`. -/
structure Artist where
  name : Option String
deriving DecidableEq, Repr

/-- An album image object; `album_images[0]["url"]` indexes `"url"` directly,
so the field is total. -/
structure Image where
  url : String
deriving DecidableEq, Repr

/-- An album object: `.get("images", []) or []` (the key may be absent or `None`). -/
structure Album where
  images : Option (List Image)
deriving DecidableEq, Repr

/-- External-urls object: `(track_obj.get("external_urls") or {}).get("spotify")`. -/
structure ExtUrls where
  spotify : Option String
deriving DecidableEq, Repr

/-- A Spotify track object as consumed by `_build_spotify_preview_info`.
Each field models the corresponding `.get` access on the dict; list elements
of `artists` may be `None` (`if a and a.get("name")`). -/
structure TrackObj where
  preview_url : Option String
  name : Option String
  external_urls : Option ExtUrls
  artists : List (Option Artist)
  album : Option Album
deriving DecidableEq, Repr

/-- Python: `", ".join(a["name"] for a in track_obj.get("artists", []) if a and a.get("name"))`:
keep the names of non-`None` artist entries whose `name` is a truthy
(non-`None`, non-empty) string. -/
def artistNames (arts : List (Option Artist)) : List String :=
  arts.filterMap fun a? =>
    match a? with
    | none => none
    | some a =>
      match a.name with
      | none => none
      | some n => if n = "" then none else some n

/-- Python: `album_images = (track_obj.get("album") or {}).get("images", []) or []`. -/
def albumImages (t : TrackObj) : List Image :=
  match t.album with
  | none => []
  | some a => a.images.getD []

/-- Embedding of `_build_spotify_preview_info(track_obj)`: `None` unless the track object is a
dict with a truthy `preview_url`; otherwise the info dict with the preview as
direct audio url and a fixed duration of 30. -/
def _build_spotify_preview_info : Option TrackObj → Option SongInfo
  | none => none
  | some t =>
    match t.preview_url with
    | none => none
    | some p =>
      if p = "" then none
      else
        some
          { url := p
            title := t.name
            webpage_url :=
              match t.external_urls with
              | none => none
              | some e => e.spotify
            uploader := some (String.intercalate ", " (artistNames t.artists))
            thumbnail :=
              match albumImages t with
              | [] => none
              | img :: _ => some img.url
            duration := 30 }

/-! ## The Spotify URL regexes

`_RE_SPOTIFY_TRACK = re.compile(r"(?:open|play)\.spotify\.com/track/([A-Za-z0-9]+)")`,
used with `.search`: leftmost position at which the pattern matches, group 1
being the maximal non-empty `[A-Za-z0-9]` run after the fixed prefix. -/

/-- The literal part of the track regex, `open` alternative. -/
def trackPrefixOpen : List Char := "open.spotify.com/track/".data

/-- The literal part of the track regex, `play` alternative. -/
def trackPrefixPlay : List Char := "play.spotify.com/track/".data

/-- Try to match the track regex at the start of `s`: one of the two literal
23-character prefixes followed by a non-empty alphanumeric run (group 1). -/
def matchTrackAt (s : List Char) : Option (List Char) :=
  if trackPrefixOpen.isPrefixOf s then
    let run := (s.drop 23).takeWhile Char.isAlphanum
    if run.isEmpty then none else some run
  else if trackPrefixPlay.isPrefixOf s then
    let run := (s.drop 23).takeWhile Char.isAlphanum
    if run.isEmpty then none else some run
  else none

/-- Semantics of `re.search`: scan positions left to right, return the first
position where the pattern matches. -/
def searchTrackAux : List Char → Option (List Char)
  | [] => none
  | c :: rest =>
    match matchTrackAt (c :: rest) with
    | some g => some g
    | none => searchTrackAux rest

/-- Embedding of `_extract_spotify_track_id(url)`: group 1 of the first track-regex match. -/
def _extract_spotify_track_id (url : String) : Option String :=
  (searchTrackAux url.data).map fun cs => ⟨cs⟩

/-- Embedding of `_is_spotify_track_url(url)`. -/
def _is_spotify_track_url (url : String) : Bool :=
  (_extract_spotify_track_id url).isSome

/-- Embedding of `_build_spotify_track_url(track_id)`. -/
def _build_spotify_track_url (track_id : String) : String :=
  "https://open.spotify.com/track/" ++ track_id

/-! ## The Spotify client and the resolution paths -/

/-- The `tracks` object of a search response: `.get("items", []) or []`. -/
structure SearchTracks where
  items : Option (List (Option TrackObj))

/-- A search response: `(res or {}).get("tracks", {})`. -/
structure SearchResponse where
  tracks : Option SearchTracks

/-- The spotipy client (`self._sp`) at its call boundary: `track` and `search`
do network I/O and may raise (`Except.error`). -/
structure SpClient where
  track : String → Except String (Option TrackObj)
  search : String → Nat → Except String (Option SearchResponse)

/-- Python: `items = (res or {}).get("tracks", {}).get("items", []) or []`. -/
def searchItems (res : Option SearchResponse) : List (Option TrackObj) :=
  match res with
  | none => []
  | some r =>
    match r.tracks with
    | none => []
    | some t => t.items.getD []

/-- Embedding of `_spotify_track_info_from_track_url(url)`: `{}` without a client, without a
parsable track id, when the provider call raises, or when the fetched track has
no truthy `preview_url`; the preview info dict otherwise. -/
def _spotify_track_info_from_track_url (sp : Option SpClient) (url : String) :
    Option SongInfo :=
  match sp with
  | none => none
  | some c =>
    match _extract_spotify_track_id url with
    | none => none
    | some track_id =>
      if track_id = "" then none
      else
        match c.track track_id with
        | .error _ => none
        | .ok tr => _build_spotify_preview_info tr

/-- Python: `x in url` on strings: substring containment. -/
def strContains (hay needle : String) : Bool :=
  go needle.data hay.data
where
  /-- Whether `needle` occurs at some suffix start of `hay`. -/
  go (needle : List Char) : List Char → Bool
  | [] => needle.isEmpty
  | c :: rest => needle.isPrefixOf (c :: rest) || go needle rest

/-- Embedding of `__download_url(url)` (with `self._spotify_only = True`): Spotify track URLs
go through the provider; raw preview-host URLs are wrapped directly with
duration 30; everything else is blocked (`{}`). -/
def __download_url (sp : Option SpClient) (url : String) : Option SongInfo :=
  if _is_spotify_track_url url then
    _spotify_track_info_from_track_url sp url
  else if strContains url "audio.scdn.co" || strContains url "p.scdn.co" then
    some
      { url := url
        title := some "Spotify Preview"
        webpage_url := none
        uploader := none
        thumbnail := none
        duration := 30 }
  else none

/-- Embedding of `__download_title(title)`: `{}` without a client; otherwise
`search(q=title, type="track", limit=5)`, scanning the items in order and
returning the first truthy preview info; `{}` when the search raises or no
item has a preview. -/
def __download_title : Option SpClient → String → Option SongInfo
  | none, _ => none
  | some c, title =>
    match c.search title 5 with
    | .error _ => none
    | .ok res => (searchItems res).findSome? _build_spotify_preview_info

/-- Modelled from the spec: `Utils.is_url` (file `Utils/Utils.py` is not under
`src/`). The spec says identifier classification is pure string matching and
non-URL strings are free text; a URL is modelled as a string carrying an
http(s) scheme. -/
def is_url (s : String) : Bool :=
  "http://".data.isPrefixOf s.data || "https://".data.isPrefixOf s.data

/-- What `finish_one_song` did: returned Python `None`, or called
`song.finish_down(info)` and returned the song. -/
inductive FinishOutcome where
  | noSong
  | song (info : Option SongInfo)
deriving DecidableEq, Repr

/-- Embedding of `finish_one_song(song)`; `Except.error` models `raise DownloadingError(msg)`.
The only site raising `DownloadingError` is the `except DownloadError` handler,
and `DownloadError` comes from `yt_dlp`, which no reachable path invokes in
Spotify-only mode, so the embedding of the body never produces `.error`. -/
def finish_one_song : Option SpClient → Option String → Except String FinishOutcome
  | _, none => .ok .noSong
  | sp, some ident =>
    .ok (.song (if is_url ident then __download_url sp ident
                else __download_title sp ident))

/-! ## Collection expansion (`_get_playlist_track_ids` / `_get_album_track_ids`)

The spotipy pagination endpoints (`playlist_tracks` / `album_tracks`) serve
slices of the collection's item sequence: a request at `offset` with page size
`lim` returns `items[offset : offset + lim]`. A provider is its item sequence
plus an optional offset from which every request raises (modelling a transport
failure mid-pagination). -/

/-- A track reference: `tr.get("id")`. -/
structure TrackRef where
  id : Option String
deriving DecidableEq, Repr

/-- A playlist item: `(it or {}).get("track") or {}` — the item may be `None`
and its `track` field may be absent/`None`. -/
structure PlaylistEntry where
  track : Option TrackRef
deriving DecidableEq, Repr

/-- A paginated provider endpoint over items of type `α`:  the collection's
items in provider order, and the first offset (if any) at which a page request
raises. -/
structure PagedProvider (α : Type) where
  items : List α
  failFrom : Option Nat
deriving Repr

/-- Does a page request at `offset` raise? -/
def PagedProvider.failsAt (p : PagedProvider α) (offset : Nat) : Bool :=
  match p.failFrom with
  | none => false
  | some n => n ≤ offset

/-- Python: `tid = ((it or {}).get("track") or {}).get("id"); if tid:` — the id kept
for a playlist item, `none` when the chain is falsy. -/
def playlistItemId (it : Option PlaylistEntry) : Option String :=
  match it with
  | none => none
  | some e =>
    match e.track with
    | none => none
    | some tr =>
      match tr.id with
      | none => none
      | some s => if s = "" then none else some s

/-- Python: `tid = tr.get("id"); if tid:` — the id kept for an album item. -/
def albumItemId (tr : TrackRef) : Option String :=
  match tr.id with
  | none => none
  | some s => if s = "" then none else some s

/-- The `while True` pagination loop shared by `_get_playlist_track_ids` and
`_get_album_track_ids`: fetch the page at `offset` (here `rest` is
`p.items.drop offset`, maintained by the caller), stop on an empty page, append
the page's truthy ids, stop when the page is short, else continue at
`offset + lim`. A raising fetch (`failsAt`) ends the loop via the `except`
handler, keeping the ids accumulated so far. -/
def collectGo (toId : α → Option String) (lim : Nat) (p : PagedProvider α)
    (offset : Nat) (rest : List α) : List String :=
  if p.failsAt offset then []
  else
    let page := rest.take lim
    if _hp : page.isEmpty then []
    else
      page.filterMap toId ++
        (if page.length < lim then []
         else collectGo toId lim p (offset + lim) (rest.drop lim))
termination_by rest.length
decreasing_by
  simp only [List.isEmpty_iff] at _hp
  have h1 : 1 ≤ lim := by
    rcases Nat.eq_zero_or_pos lim with h | h
    · subst h; simp [page] at _hp
    · exact h
  have h2 : rest ≠ [] := by
    intro h; apply _hp; simp [page, h]
  have h3 : 0 < rest.length := List.length_pos.mpr h2
  simp only [List.length_drop]
  omega

/-- Embedding of `_get_playlist_track_ids(playlist_id)`: drain `playlist_tracks` pages of
size 100 and truncate the accumulated ids to `MAX_PLAYLIST_LENGTH` (`maxLen`;
the constant lives in `Config/Configs.py`, outside `src/`). -/
def _get_playlist_track_ids (p : PagedProvider (Option PlaylistEntry))
    (maxLen : Nat) : List String :=
  (collectGo playlistItemId 100 p 0 p.items).take maxLen

/-- Embedding of `_get_album_track_ids(album_id)`: drain `album_tracks` pages of size 50 and
truncate the accumulated ids to `MAX_PLAYLIST_LENGTH` (`maxLen`). -/
def _get_album_track_ids (p : PagedProvider TrackRef) (maxLen : Nat) :
    List String :=
  (collectGo albumItemId 50 p 0 p.items).take maxLen

/-! ## The asynchronous prefetch path (`download_song`) -/

/-- What the worker closure `__download_func` did to the song: called
`song.finish_down(info)` once (success path), or caught an exception and only
printed it, leaving the song untouched. There is no constructor for a
propagated exception: the `except Exception` handler is total. -/
inductive WorkerOutcome where
  | finished (info : Option SongInfo)
  | loggedOnly (msg : String)
deriving DecidableEq, Repr

/-- Embedding of `__download_func(song)` inside `download_song`: resolve the identifier
(both paths are total — they swallow provider errors internally), then call
`song.finish_down(song_info)`. `finish_down` is external (`Music/Song.py` is
not under `src/`), so it is a parameter that may itself raise; an exception is
caught and printed, and nothing is written to the song. -/
def __download_func (sp : Option SpClient) (identifier : String)
    (finish_down : Option SongInfo → Except String Unit) : WorkerOutcome :=
  let song_info :=
    if is_url identifier then __download_url sp identifier
    else __download_title sp identifier
  match finish_down song_info with
  | .ok _ => .finished song_info
  | .error e => .loggedOnly e

/-- The executor usage of one `download_song` call: the call constructs a fresh
`ThreadPoolExecutor(max_workers=MAX_PRELOAD_SONGS)` and submits the singleton
future set `fs = {loop.run_in_executor(executor, __download_func, song)}`. -/
structure PoolUse where
  capacity : Nat
  tasks : Nat
deriving DecidableEq, Repr

/-- The pool constructed by one `download_song` call:
capacity `MAX_PRELOAD_SONGS`, one submitted resolution task. -/
def download_song_pool (maxPreloadSongs : Nat) : PoolUse :=
  { capacity := maxPreloadSongs, tasks := 1 }

/-- How many of a pool's tasks can run simultaneously: bounded by its own
capacity only. -/
def PoolUse.inFlight (p : PoolUse) : Nat :=
  min p.tasks p.capacity

/-- Resolution calls that can be in flight simultaneously across a set of
concurrent `download_song` calls: the pools are distinct objects, so their
in-flight counts add up. -/
def totalInFlight (pools : List PoolUse) : Nat :=
  (pools.map PoolUse.inFlight).sum

/-! ## Concrete clients used in witnesses -/

/-- A client whose every provider call fails at the transport level. -/
def spTransportFail : SpClient where
  track := fun _ => .error "TransportError"
  search := fun _ _ => .error "TransportError"

/-- A client whose catalog entry for every id exists but has no preview asset. -/
def spNoPreview : SpClient where
  track := fun _ =>
    .ok (some { preview_url := none, name := some "Song", external_urls := none,
                artists := [], album := none })
  search := fun _ _ => .ok none

/-- First ranked search candidate of `spSearchTwo`: no preview asset. -/
def trFirstNoPreview : TrackObj :=
  { preview_url := none, name := some "First", external_urls := none,
    artists := [], album := none }

/-- Second ranked search candidate of `spSearchTwo`: carries a preview asset. -/
def trSecondPreview : TrackObj :=
  { preview_url := some "https://p.scdn.co/mp3-preview/second",
    name := some "Second", external_urls := none, artists := [], album := none }

/-- A client whose search returns two ranked candidates, only the second of
which has a preview asset. -/
def spSearchTwo : SpClient where
  track := fun _ => .ok none
  search := fun _ _ =>
    .ok (some ⟨some ⟨some [some trFirstNoPreview, some trSecondPreview]⟩⟩)

/-! ## Helper lemmas -/

/-- A prefix check that cannot see past `a` only looks at `a`. -/
theorem isPrefixOf_append_left :
    ∀ (p a b : List Char), p.length ≤ a.length →
      p.isPrefixOf (a ++ b) = p.isPrefixOf a
  | [], _, _, _ => by simp
  | _ :: _, [], _, h => by simp at h
  | x :: p, y :: a, b, h => by
    simp only [List.cons_append, List.isPrefixOf_cons₂]
    rw [isPrefixOf_append_left p a b (by simpa using h)]

/-- Lists are prefixes of their own extensions. -/
theorem isPrefixOf_append_self :
    ∀ (p b : List Char), p.isPrefixOf (p ++ b) = true
  | [], _ => by simp
  | x :: p, b => by
    simp only [List.cons_append, List.isPrefixOf_cons₂]
    rw [isPrefixOf_append_self p b]
    simp

/-- The track regex cannot match at the start of `a ++ b` when neither literal
alternative is a prefix of `a` and `a` is at least as long as the literals. -/
theorem matchTrackAt_append_none (a b : List Char) (ha : 23 ≤ a.length)
    (h1 : trackPrefixOpen.isPrefixOf a = false)
    (h2 : trackPrefixPlay.isPrefixOf a = false) :
    matchTrackAt (a ++ b) = none := by
  unfold matchTrackAt
  rw [isPrefixOf_append_left trackPrefixOpen a b (by simpa using ha),
      isPrefixOf_append_left trackPrefixPlay a b (by simpa using ha), h1, h2]
  simp

/-- The regex search skips a region where the pattern matches nowhere. -/
theorem searchTrackAux_append (a b : List Char)
    (h : ∀ k, k < a.length → matchTrackAt (a.drop k ++ b) = none) :
    searchTrackAux (a ++ b) = searchTrackAux b := by
  induction a with
  | nil => simp
  | cons c t ih =>
    have h0 : matchTrackAt (c :: (t ++ b)) = none := by
      simpa using h 0 (by simp)
    rw [List.cons_append, searchTrackAux, h0]
    exact ih fun k hk => by simpa using h (k + 1) (by simpa using hk)

/-- The regex search succeeds wherever the pattern matches at the head. -/
theorem searchTrackAux_of_match (l g : List Char) (hm : matchTrackAt l = some g) :
    searchTrackAux l = some g := by
  cases l with
  | nil => rw [show matchTrackAt [] = none from by decide] at hm; exact absurd hm (by simp)
  | cons c rest => rw [searchTrackAux, hm]

/-- Matching the track regex right at its `open` literal yields the
alphanumeric run that follows, if non-empty. -/
theorem matchTrackAt_open (b : List Char) :
    matchTrackAt (trackPrefixOpen ++ b) =
      (if (b.takeWhile Char.isAlphanum).isEmpty then none
       else some (b.takeWhile Char.isAlphanum)) := by
  unfold matchTrackAt
  rw [isPrefixOf_append_self,
      List.drop_left' (show trackPrefixOpen.length = 23 from rfl)]
  simp

/-- Splitting a `take` at an intermediate point. -/
theorem take_add_split : ∀ (l : List α) (m n : Nat),
    l.take (m + n) = l.take m ++ (l.drop m).take n
  | _, 0, _ => by simp
  | [], _ + 1, _ => by simp
  | x :: xs, m + 1, n => by
    rw [show m + 1 + n = (m + n) + 1 from by omega]
    simp only [List.take_succ_cons, List.drop_succ_cons, List.cons_append]
    rw [take_add_split xs m n]

/-- With no page failure, the pagination loop drains the whole collection:
the accumulated ids are exactly the truthy ids of all items, in provider
order. -/
theorem collectGo_eq_filterMap (toId : α → Option String) (lim : Nat)
    (p : PagedProvider α) (hfail : p.failFrom = none) (hlim : 1 ≤ lim)
    (offset : Nat) (rest : List α) :
    collectGo toId lim p offset rest = rest.filterMap toId := by
  rw [collectGo]
  have hfa : p.failsAt offset = false := by simp [PagedProvider.failsAt, hfail]
  rw [hfa]
  simp only [Bool.false_eq_true, if_false]
  by_cases hp : (rest.take lim).isEmpty
  · have hr : rest = [] := by
      rw [List.isEmpty_iff] at hp
      rcases List.take_eq_nil_iff.mp hp with h | h
      · omega
      · exact h
    simp [hp, hr]
  · rw [dif_neg hp]
    by_cases hlt : (rest.take lim).length < lim
    · have hr : rest.take lim = rest := by
        apply List.take_of_length_le
        simp only [List.length_take] at hlt
        omega
      rw [hr] at hlt
      simp [hr]
      intro h2
      exact absurd h2 (by omega)
    · have hrec := collectGo_eq_filterMap toId lim p hfail hlim (offset + lim) (rest.drop lim)
      simp only [hlt, if_false, hrec]
      rw [← List.filterMap_append, List.take_append_drop]
termination_by rest.length
decreasing_by
  rw [List.isEmpty_iff] at hp
  have h2 : rest ≠ [] := by
    intro h; apply hp; simp [h]
  have h3 : 0 < rest.length := List.length_pos.mpr h2
  simp only [List.length_drop]
  omega

/-- When every page request at offsets `offset + k * lim` or beyond raises and the
first `k` pages are full, the loop returns exactly the ids accumulated from
the `k` pages fetched before the failure. -/
theorem collectGo_fail_take (toId : α → Option String) (lim : Nat)
    (p : PagedProvider α) (hlim : 1 ≤ lim) :
    ∀ (k offset : Nat) (rest : List α),
      p.failFrom = some (offset + k * lim) → k * lim ≤ rest.length →
      collectGo toId lim p offset rest = (rest.take (k * lim)).filterMap toId := by
  intro k
  induction k with
  | zero =>
    intro offset rest hf _
    rw [collectGo]
    have hft : p.failsAt offset = true := by simp [PagedProvider.failsAt, hf]
    simp [hft]
  | succ k ih =>
    intro offset rest hf hlen
    have hmul : (k + 1) * lim = k * lim + lim := by ring
    rw [collectGo]
    have hfa : p.failsAt offset = false := by
      simp only [PagedProvider.failsAt, hf]
      simp only [decide_eq_false_iff_not]
      omega
    rw [hfa]
    simp only [Bool.false_eq_true, if_false]
    have hrl : lim ≤ rest.length := by omega
    have hne : ¬ (rest.take lim).isEmpty := by
      rw [List.isEmpty_iff]
      intro h
      rcases List.take_eq_nil_iff.mp h with h0 | h0
      · omega
      · rw [h0] at hrl; simp at hrl; omega
    rw [dif_neg hne]
    have hplen : (rest.take lim).length = lim := by
      simp only [List.length_take]; omega
    have hnlt : ¬ (rest.take lim).length < lim := by omega
    simp only [hnlt, if_false]
    have hf' : p.failFrom = some ((offset + lim) + k * lim) := by
      rw [hf]; congr 1; ring
    have hlen' : k * lim ≤ (rest.drop lim).length := by
      simp only [List.length_drop]; omega
    rw [ih (offset + lim) (rest.drop lim) hf' hlen']
    rw [← List.filterMap_append]
    congr 1
    rw [← take_add_split]
    congr 1
    omega

/-! ## The claims -/

/-- Claim C9: `finish_one_song` called on a song whose identifier is `None`
returns `None` — no provider call (the outcome is the same for every client,
including no client at all) and no exception. -/
theorem none_identifier_returns_none :
    ∀ sp : Option SpClient, finish_one_song sp none = .ok FinishOutcome.noSong := by
  intro sp
  rfl

/-- Witness for C9 at a concrete input. -/
theorem none_identifier_returns_none_witness :
    finish_one_song none none = .ok FinishOutcome.noSong :=
  none_identifier_returns_none none

/-- Claim C5: every URL recognized as a direct audio asset (it contains
`audio.scdn.co` or `p.scdn.co` and is not a catalog track URL) is wrapped by
`__download_url` into an info dict with that URL as the audio url and the
fixed default duration 30, for every client — in particular with no client
at all, so no provider lookup takes place. -/
theorem direct_audio_asset_wrapped_directly (url : String)
    (hnt : _is_spotify_track_url url = false)
    (hda : strContains url "audio.scdn.co" = true ∨ strContains url "p.scdn.co" = true) :
    ∀ sp : Option SpClient,
      __download_url sp url =
        some { url := url, title := some "Spotify Preview", webpage_url := none,
               uploader := none, thumbnail := none, duration := 30 } := by
  intro sp
  unfold __download_url
  rw [hnt]
  rcases hda with h | h <;> simp [h]

/-- Witness for C5 at a concrete preview URL, with no client present. -/
theorem direct_audio_asset_wrapped_directly_witness :
    __download_url none "https://p.scdn.co/mp3-preview/abcdef" =
      some { url := "https://p.scdn.co/mp3-preview/abcdef", title := some "Spotify Preview",
             webpage_url := none, uploader := none, thumbnail := none, duration := 30 } :=
  direct_audio_asset_wrapped_directly _ (by decide) (Or.inr (by decide)) none

/-- The preview-info builder refuses every track object without a truthy
(non-`None`, non-empty) `preview_url`. -/
theorem build_none_of_no_preview (tr : Option TrackObj)
    (h : tr.bind TrackObj.preview_url = none ∨ tr.bind TrackObj.preview_url = some "") :
    _build_spotify_preview_info tr = none := by
  cases tr with
  | none => rfl
  | some t =>
    have h2 : t.preview_url = none ∨ t.preview_url = some "" := h
    simp only [_build_spotify_preview_info]
    rcases h2 with h0 | h0 <;> simp [h0]

/-- Every info dict the preview builder produces has a non-empty audio url. -/
theorem build_some_url_ne_empty (tr : Option TrackObj) (info : SongInfo)
    (h : _build_spotify_preview_info tr = some info) : info.url ≠ "" := by
  unfold _build_spotify_preview_info at h
  split at h
  · exact absurd h (by simp)
  · split at h
    · exact absurd h (by simp)
    · split at h
      · exact absurd h (by simp)
      · rename_i hne
        injection h with h2
        rw [← h2]
        exact hne

/-- Claim C1: when the catalog entry for a track identifier carries no playable
audio (no truthy `preview_url`), `_spotify_track_info_from_track_url` returns
the NoResult outcome (the empty info dict, `none` here); and no result it ever
produces, for any client and URL, is an info dict whose audio-url field is
empty (nullness is excluded by construction: the field is total). -/
theorem track_without_preview_never_playable
    (c : SpClient) (url tid : String) (tr : Option TrackObj)
    (hid : _extract_spotify_track_id url = some tid)
    (htr : c.track tid = .ok tr)
    (hnp : tr.bind TrackObj.preview_url = none ∨ tr.bind TrackObj.preview_url = some "") :
    _spotify_track_info_from_track_url (some c) url = none ∧
    ∀ (sp : Option SpClient) (u : String) (i : SongInfo),
      _spotify_track_info_from_track_url sp u = some i → i.url ≠ "" := by
  constructor
  · unfold _spotify_track_info_from_track_url
    rw [hid]
    by_cases h0 : tid = ""
    · simp [h0]
    · simp only [h0, if_false]
      rw [htr]
      exact build_none_of_no_preview tr hnp
  · intro sp u i h
    unfold _spotify_track_info_from_track_url at h
    split at h
    · exact absurd h (by simp)
    · split at h
      · exact absurd h (by simp)
      · split at h
        · exact absurd h (by simp)
        · split at h
          · exact absurd h (by simp)
          · exact build_some_url_ne_empty _ i h

/-- Witness for C1: a concrete track URL whose catalog entry has no preview. -/
theorem track_without_preview_never_playable_witness :
    _spotify_track_info_from_track_url (some spNoPreview)
      "https://open.spotify.com/track/abc" = none :=
  (track_without_preview_never_playable spNoPreview "https://open.spotify.com/track/abc"
    "abc"
    (some { preview_url := none, name := some "Song", external_urls := none,
            artists := [], album := none })
    (by decide) rfl (Or.inl rfl)).1

/-- Claim C6: on a free-text identifier, `__download_title` asks the provider
search with the fixed limit 5 and returns exactly the first candidate, in the
provider order, that the preview builder accepts (i.e. that has playable
audio); when no candidate has playable audio it returns the NoResult
outcome. -/
theorem search_returns_first_preview_candidate
    (c : SpClient) (title : String) (res : Option SearchResponse)
    (hs : c.search title 5 = .ok res) :
    __download_title (some c) title =
      (searchItems res).findSome? _build_spotify_preview_info ∧
    ((∀ tr ∈ searchItems res, _build_spotify_preview_info tr = none) →
      __download_title (some c) title = none) := by
  have h1 : __download_title (some c) title =
      (searchItems res).findSome? _build_spotify_preview_info := by
    simp only [__download_title]
    rw [hs]
  refine ⟨h1, fun hall => ?_⟩
  rw [h1]
  exact List.findSome?_eq_none_iff.mpr hall

/-- Witness for C6: the first ranked candidate has no preview, so the second
one is returned. -/
theorem search_returns_first_preview_candidate_witness :
    __download_title (some spSearchTwo) "hello" =
      some { url := "https://p.scdn.co/mp3-preview/second", title := some "Second",
             webpage_url := none, uploader := some "", thumbnail := none,
             duration := 30 } := by
  have h := (search_returns_first_preview_candidate spSearchTwo "hello"
    (some ⟨some ⟨some [some trFirstNoPreview, some trSecondPreview]⟩⟩) rfl).1
  rw [h]
  decide

/-- Claim C10: extracting the id back from the built canonical track URL
recovers the same id, for every id matching `[A-Za-z0-9]+` (non-empty and
alphanumeric); consequently every identifier `extract_info` produces via
`_build_spotify_track_url` re-classifies as a Spotify track URL. -/
theorem track_url_roundtrip (tid : String) (h1 : tid ≠ "")
    (h2 : ∀ c ∈ tid.data, c.isAlphanum) :
    _extract_spotify_track_id (_build_spotify_track_url tid) = some tid ∧
    _is_spotify_track_url (_build_spotify_track_url tid) = true := by
  have hdata : (_build_spotify_track_url tid).data =
      "https://".data ++ (trackPrefixOpen ++ tid.data) := by
    show ("https://open.spotify.com/track/" ++ tid).data = _
    rw [String.data_append]
    rw [show "https://open.spotify.com/track/".data =
        "https://".data ++ trackPrefixOpen from by decide]
    rw [List.append_assoc]
  have hskip : searchTrackAux ((_build_spotify_track_url tid).data) =
      searchTrackAux (trackPrefixOpen ++ tid.data) := by
    rw [hdata]
    apply searchTrackAux_append
    intro k hk
    have hk8 : k < 8 := by
      rw [show ("https://".data).length = 8 from rfl] at hk
      exact hk
    rw [← List.append_assoc]
    interval_cases k <;>
      exact matchTrackAt_append_none _ _ (by decide) (by decide) (by decide)
  have hne : ¬ (tid.data.takeWhile Char.isAlphanum).isEmpty = true := by
    rw [List.takeWhile_eq_self_iff.mpr h2, List.isEmpty_iff]
    intro h
    exact h1 (String.ext h)
  have hmatch : matchTrackAt (trackPrefixOpen ++ tid.data) = some tid.data := by
    rw [matchTrackAt_open, if_neg hne, List.takeWhile_eq_self_iff.mpr h2]
  have hsearch := searchTrackAux_of_match _ _ hmatch
  constructor
  · unfold _extract_spotify_track_id
    rw [hskip, hsearch]
    rfl
  · unfold _is_spotify_track_url _extract_spotify_track_id
    rw [hskip, hsearch]
    rfl

/-- Witness for C10 at a concrete alphanumeric id. -/
theorem track_url_roundtrip_witness :
    _extract_spotify_track_id (_build_spotify_track_url "ABC123xy") = some "ABC123xy" ∧
    _is_spotify_track_url (_build_spotify_track_url "ABC123xy") = true :=
  track_url_roundtrip "ABC123xy" (by decide) (by decide)

/-- Claim C2: when the provider holds more truthy track ids than the cap,
both expansion functions return exactly `maxLen` identifiers, and the result
is the length-`maxLen` prefix of the full id sequence in provider order — so
order is preserved and no duplicates are introduced or removed beyond what
the provider returned (`MAX_PLAYLIST_LENGTH` lives in `Config/Configs.py`,
outside `src/`, and is the parameter `maxLen`). -/
theorem expansion_capped_order_preserving
    (pl : PagedProvider (Option PlaylistEntry)) (al : PagedProvider TrackRef)
    (maxLen : Nat)
    (hplf : pl.failFrom = none) (half : al.failFrom = none)
    (hpl : maxLen < (pl.items.filterMap playlistItemId).length)
    (hal : maxLen < (al.items.filterMap albumItemId).length) :
    (_get_playlist_track_ids pl maxLen =
        (pl.items.filterMap playlistItemId).take maxLen ∧
      (_get_playlist_track_ids pl maxLen).length = maxLen) ∧
    (_get_album_track_ids al maxLen =
        (al.items.filterMap albumItemId).take maxLen ∧
      (_get_album_track_ids al maxLen).length = maxLen) := by
  have h1 : _get_playlist_track_ids pl maxLen =
      (pl.items.filterMap playlistItemId).take maxLen := by
    unfold _get_playlist_track_ids
    rw [collectGo_eq_filterMap playlistItemId 100 pl hplf (by omega) 0 pl.items]
  have h2 : _get_album_track_ids al maxLen =
      (al.items.filterMap albumItemId).take maxLen := by
    unfold _get_album_track_ids
    rw [collectGo_eq_filterMap albumItemId 50 al half (by omega) 0 al.items]
  refine ⟨⟨h1, ?_⟩, ⟨h2, ?_⟩⟩
  · rw [h1, List.length_take]
    omega
  · rw [h2, List.length_take]
    omega

/-- Witness for C2: four provider entries (one falsy), cap 2. -/
theorem expansion_capped_order_preserving_witness :
    _get_playlist_track_ids
      ⟨[some ⟨some ⟨some "a"⟩⟩, none, some ⟨some ⟨some "b"⟩⟩, some ⟨some ⟨some "c"⟩⟩],
       none⟩ 2 = ["a", "b"] ∧
    _get_album_track_ids ⟨[⟨some "x"⟩, ⟨none⟩, ⟨some "y"⟩, ⟨some "z"⟩], none⟩ 2 =
      ["x", "y"] := by
  have h := expansion_capped_order_preserving
    ⟨[some ⟨some ⟨some "a"⟩⟩, none, some ⟨some ⟨some "b"⟩⟩, some ⟨some ⟨some "c"⟩⟩], none⟩
    ⟨[⟨some "x"⟩, ⟨none⟩, ⟨some "y"⟩, ⟨some "z"⟩], none⟩ 2 rfl rfl (by decide) (by decide)
  refine ⟨?_, ?_⟩
  · rw [h.1.1]; decide
  · rw [h.2.1]; decide

/-- Claim C8: when a page fetch raises mid-pagination (here: every request
from offset `k * limit` on), expansion does not raise — it returns exactly
the ids accumulated from the pages fetched before the failure, still subject
to the length cap. (That no exception escapes is reflected in the plain
`List String` return type: the `except` handler makes the loop total.) -/
theorem page_failure_returns_partial_ids
    (pl : PagedProvider (Option PlaylistEntry)) (al : PagedProvider TrackRef)
    (maxLen kp ka : Nat)
    (hplf : pl.failFrom = some (kp * 100)) (hpll : kp * 100 ≤ pl.items.length)
    (half : al.failFrom = some (ka * 50)) (hall : ka * 50 ≤ al.items.length) :
    _get_playlist_track_ids pl maxLen =
      ((pl.items.take (kp * 100)).filterMap playlistItemId).take maxLen ∧
    _get_album_track_ids al maxLen =
      ((al.items.take (ka * 50)).filterMap albumItemId).take maxLen := by
  constructor
  · unfold _get_playlist_track_ids
    rw [collectGo_fail_take playlistItemId 100 pl (by omega) kp 0 pl.items
      (by simpa using hplf) hpll]
  · unfold _get_album_track_ids
    rw [collectGo_fail_take albumItemId 50 al (by omega) ka 0 al.items
      (by simpa using half) hall]

/-- Witness for C8: the second page request fails, so only the first page's
ids survive (capped at 3). -/
theorem page_failure_returns_partial_ids_witness :
    _get_playlist_track_ids
      ⟨List.replicate 100 (some ⟨some ⟨some "a"⟩⟩) ++ [some ⟨some ⟨some "z"⟩⟩],
       some (1 * 100)⟩ 3 = ["a", "a", "a"] ∧
    _get_album_track_ids
      ⟨List.replicate 50 ⟨some "x"⟩ ++ [⟨some "w"⟩], some (1 * 50)⟩ 3 =
      ["x", "x", "x"] := by
  have h := page_failure_returns_partial_ids
    ⟨List.replicate 100 (some ⟨some ⟨some "a"⟩⟩) ++ [some ⟨some ⟨some "z"⟩⟩], some (1 * 100)⟩
    ⟨List.replicate 50 ⟨some "x"⟩ ++ [⟨some "w"⟩], some (1 * 50)⟩
    3 1 1 rfl (by decide) rfl (by decide)
  refine ⟨?_, ?_⟩
  · rw [h.1]; decide
  · rw [h.2]; decide

/-- Counterexample to C3 as stated: a provider call failing at the transport
level does not raise a `DownloadingError` from `finish_one_song` — the song is
finished with the empty info dict, the same NoResult outcome as a no-match. -/
theorem transport_error_returns_empty_not_raise :
    finish_one_song (some spTransportFail) (some "https://open.spotify.com/track/abc") =
      .ok (.song none) := rfl

/-- A track lookup that raises is swallowed by `__download_url` into `{}`. -/
theorem download_url_track_error (c : SpClient) (url tid e : String)
    (hid : _extract_spotify_track_id url = some tid) (htr : c.track tid = .error e) :
    __download_url (some c) url = none := by
  have hturl : _is_spotify_track_url url = true := by
    unfold _is_spotify_track_url
    rw [hid]
    rfl
  unfold __download_url
  rw [hturl]
  simp only [if_true]
  unfold _spotify_track_info_from_track_url
  rw [hid]
  by_cases h0 : tid = ""
  · simp [h0]
  · simp only [h0, if_false]
    rw [htr]

/-- A search that raises is swallowed by `__download_title` into `{}`. -/
theorem download_title_error (c : SpClient) (title e : String)
    (hs : c.search title 5 = .error e) :
    __download_title (some c) title = none := by
  simp only [__download_title]
  rw [hs]

/-- Claim C3 as amended: `finish_one_song` never raises a `DownloadingError`
in Spotify-only mode — the `DownloadError` conversion is dead code, since no
reachable path invokes `yt_dlp`. A transport-level failure of the provider's
track lookup, and likewise of its search, is caught inside the download paths
and converted to the NoResult outcome (the empty info dict), indistinguishable
from a provider no-match. -/
theorem finish_one_song_swallows_transport_errors :
    (∀ (sp : Option SpClient) (ident : Option String),
      ∃ v, finish_one_song sp ident = .ok v) ∧
    (∀ (c : SpClient) (url tid e : String),
      is_url url = true → _extract_spotify_track_id url = some tid →
      c.track tid = .error e →
      finish_one_song (some c) (some url) = .ok (.song none)) ∧
    (∀ (c : SpClient) (title e : String),
      is_url title = false → c.search title 5 = .error e →
      finish_one_song (some c) (some title) = .ok (.song none)) := by
  refine ⟨?_, ?_, ?_⟩
  · intro sp ident
    cases ident with
    | none => exact ⟨_, rfl⟩
    | some s => exact ⟨_, rfl⟩
  · intro c url tid e hu hid htr
    simp only [finish_one_song]
    rw [hu]
    simp only [if_true]
    rw [download_url_track_error c url tid e hid htr]
  · intro c title e hu hs
    simp only [finish_one_song]
    rw [hu]
    simp only [Bool.false_eq_true, if_false]
    rw [download_title_error c title e hs]

/-- Witness for C3 (amended) on concrete transport-failing lookups. -/
theorem finish_one_song_swallows_transport_errors_witness :
    finish_one_song (some spTransportFail) (some "https://play.spotify.com/track/xyz") =
      .ok (.song none) ∧
    finish_one_song (some spTransportFail) (some "some song title") = .ok (.song none) :=
  ⟨finish_one_song_swallows_transport_errors.2.1 spTransportFail
      "https://play.spotify.com/track/xyz" "xyz" "TransportError" (by decide) (by decide) rfl,
   finish_one_song_swallows_transport_errors.2.2 spTransportFail
      "some song title" "TransportError" (by decide) rfl⟩

/-- Claim C4, evaluated at the failing input: `download_song` constructs a
fresh `ThreadPoolExecutor(max_workers=MAX_PRELOAD_SONGS)` inside every call
and submits one resolution task to it, so with `MAX_PRELOAD_SONGS = 1` two
concurrent `download_song` calls have two resolution calls in flight — more
than the configured bound, contradicting the claimed process-wide cap. -/
theorem per_call_pools_break_global_bound :
    totalInFlight (List.replicate 2 (download_song_pool 1)) = 2 ∧
    1 < totalInFlight (List.replicate 2 (download_song_pool 1)) := by decide

/-- Counterexample to C7 as stated: an exception raised inside the worker
(here by `finish_down` itself) is caught and only logged — no Failed outcome
is written into the song, which is left untouched. -/
theorem worker_exception_leaves_song_unwritten :
    __download_func none "some title" (fun _ => .error "finish_down failed") =
      .loggedOnly "finish_down failed" := rfl

/-- Claim C7 as amended: every exception raised during the worker is caught
and logged and never propagates (the outcome type has no propagation case);
but it is not converted into a Failed write — when `finish_down` raises, the
result is `loggedOnly` and never a `finished` write. On the success path
`finish_down` is invoked exactly once, with the resolved info (transport
failures having already been swallowed into the empty info by the download
paths). -/
theorem worker_swallows_exceptions
    (sp : Option SpClient) (identifier : String)
    (fd : Option SongInfo → Except String Unit) (e : String)
    (hraise : ∀ i, fd i = .error e) :
    __download_func sp identifier fd = .loggedOnly e ∧
    (∀ i, __download_func sp identifier fd ≠ .finished i) ∧
    (∀ fd2 : Option SongInfo → Except String Unit, (∀ i, fd2 i = .ok ()) →
      __download_func sp identifier fd2 =
        .finished (if is_url identifier then __download_url sp identifier
                   else __download_title sp identifier)) := by
  have h1 : __download_func sp identifier fd = .loggedOnly e := by
    simp only [__download_func, hraise]
  refine ⟨h1, fun i hcontra => ?_, fun fd2 hok => ?_⟩
  · rw [h1] at hcontra
    exact WorkerOutcome.noConfusion hcontra
  · simp only [__download_func, hok]

/-- Witness for C7 (amended) at a concrete raising `finish_down`. -/
theorem worker_swallows_exceptions_witness :
    __download_func none "another title" (fun _ => .error "disk full") =
      .loggedOnly "disk full" :=
  (worker_swallows_exceptions none "another title" _ "disk full" (fun _ => rfl)).1

end Downloader
